import Mathlib

/-!
Verification development for the Falcor `GodRays` render pass
(`src/Framework/Source/Effects/GodRays/GodRays.h`).

The repository ships only the class header; the implementation file
(`GodRays.cpp`) and the GPU shader sources are not present. Declarations,
member types and default arguments are embedded from the header; the bodies
of `create`, `execute`, `setNumSamples`, `serialize`/`deserialize`, the
occluder pass and the radial-blur fragment program are modelled from the
specification, as marked on each definition. Colors and parameters are
embedded as exact rationals.
-/

/-- A screen-space UV coordinate. -/
abbrev UV := ℚ × ℚ

/-- An image, as the function a bilinear clamp-to-edge sampler realizes:
UV coordinate to (single-channel) color. -/
abbrev Image := UV → ℚ

/-- The tap position after j steps of size dir from p. -/
def tap (p dir : UV) (j : ℕ) : UV :=
  (p.1 + (j : ℚ) * dir.1, p.2 + (j : ℚ) * dir.2)

/-- Modelled from the spec: the per-step offset of the RadialBlurPass fragment
program (shader source missing from src/), §4.3:
dir = (uvLight - p) / numSamples * mediumDensity. -/
def radialBlurDir (uvLight p : UV) (numSamples : ℕ) (mediumDensity : ℚ) : UV :=
  ((uvLight.1 - p.1) / (numSamples : ℚ) * mediumDensity,
   (uvLight.2 - p.2) / (numSamples : ℚ) * mediumDensity)

/-- Modelled from the spec: the accumulation loop of the RadialBlurPass fragment
program (shader source missing from src/), §4.3. Arguments after the step count:
current uv, current illumDecay, accumulator. Each iteration advances uv by dir,
adds sample * illumDecay * mediumWeight, and multiplies illumDecay by mediumDecay. -/
def radialBlurLoop (tex : Image) (dir : UV) (mediumWeight mediumDecay : ℚ) :
    ℕ → UV → ℚ → ℚ → ℚ
  | 0, _, _, accum => accum
  | Nat.succ k, uv, illumDecay, accum =>
    radialBlurLoop tex dir mediumWeight mediumDecay k
      (uv.1 + dir.1, uv.2 + dir.2)
      (illumDecay * mediumDecay)
      (accum + tex (uv.1 + dir.1, uv.2 + dir.2) * illumDecay * mediumWeight)

/-- Modelled from the spec: the RadialBlurPass fragment program (shader source
missing from src/), §4.3: numSamples taps from p toward uvLight, geometric
decay, scaled by exposure at the end. -/
def radialBlur (tex : Image) (uvLight p : UV)
    (mediumDensity mediumWeight mediumDecay exposer : ℚ) (numSamples : ℕ) : ℚ :=
  radialBlurLoop tex (radialBlurDir uvLight p numSamples mediumDensity)
    mediumWeight mediumDecay numSamples p 1 0 * exposer

lemma tap_zero (p dir : UV) : tap p dir 0 = p := by
  simp [tap]

lemma tap_one (p dir : UV) : tap p dir 1 = (p.1 + dir.1, p.2 + dir.2) := by
  simp [tap]

lemma tap_shift (p dir : UV) (k : ℕ) :
    tap (p.1 + dir.1, p.2 + dir.2) dir k = tap p dir (k + 1) := by
  simp only [tap, Prod.mk.injEq]
  constructor <;> · push_cast; ring

/-- Closed form of the radial-blur loop: the accumulator plus a geometric
weighted sum of the taps. -/
lemma radialBlurLoop_closed (tex : Image) (dir : UV) (w d : ℚ) :
    ∀ (N : ℕ) (uv : UV) (illum accum : ℚ),
      radialBlurLoop tex dir w d N uv illum accum
        = accum + ∑ k ∈ Finset.range N, tex (tap uv dir (k + 1)) * (illum * d ^ k) * w := by
  intro N
  induction N with
  | zero => intro uv illum accum; simp [radialBlurLoop]
  | succ n ih =>
    intro uv illum accum
    rw [radialBlurLoop, ih, Finset.sum_range_succ']
    simp only [tap_shift, zero_add, tap_one, pow_zero, pow_succ]
    have hsum : ∀ x : ℕ, tex (tap uv dir (x + 1 + 1)) * (illum * (d ^ x * d)) * w
        = tex (tap uv dir (x + 1 + 1)) * (illum * d * d ^ x) * w := by
      intro x; ring
    simp only [hsum]
    ring

/-- Closed form of the radial blur: exposure times weight times the
decay-weighted sum of the taps along the ray toward the light. -/
lemma radialBlur_closed (tex : Image) (uvLight p : UV)
    (ρ w d e : ℚ) (N : ℕ) :
    radialBlur tex uvLight p ρ w d e N
      = (∑ k ∈ Finset.range N,
          tex (tap p (radialBlurDir uvLight p N ρ) (k + 1)) * d ^ k) * w * e := by
  rw [radialBlur, radialBlurLoop_closed, zero_add]
  simp only [Finset.sum_mul]
  apply Finset.sum_congr rfl
  intro k _
  ring

/-- Radial blur with the light at the pixel itself: the direction vector is
zero, every tap reads the same texel, and the output is the texel times
weight times the geometric decay sum times exposure. -/
lemma radialBlur_center (tex : Image) (p : UV) (ρ w d e : ℚ) (N : ℕ) :
    radialBlur tex p p ρ w d e N
      = tex p * w * (∑ k ∈ Finset.range N, d ^ k) * e := by
  rw [radialBlur_closed]
  have hdir : radialBlurDir p p N ρ = (0, 0) := by
    simp [radialBlurDir]
  have htap : ∀ k : ℕ, tap p (radialBlurDir p p N ρ) (k + 1) = p := by
    intro k
    simp [hdir, tap]
  simp only [htap]
  rw [← Finset.mul_sum]
  ring

/-- Radial blur of the identically-zero image is zero. -/
lemma radialBlur_zero_tex (uvLight p : UV) (ρ w d e : ℚ) (N : ℕ) :
    radialBlur (fun _ => 0) uvLight p ρ w d e N = 0 := by
  rw [radialBlur_closed]
  simp

/-- Radial blur with zero exposure is zero. -/
lemma radialBlur_exposer_zero (tex : Image) (uvLight p : UV) (ρ w d : ℚ) (N : ℕ) :
    radialBlur tex uvLight p ρ w d 0 N = 0 := by
  rw [radialBlur_closed]
  ring

/-- Radial blur with zero weight is zero. -/
lemma radialBlur_weight_zero (tex : Image) (uvLight p : UV) (ρ d e : ℚ) (N : ℕ) :
    radialBlur tex uvLight p ρ 0 d e N = 0 := by
  rw [radialBlur_closed]
  ring

/-- A scene light. The clip-space position clip = viewProj * worldLightPos of
§4.2 is carried directly, the camera transform being outside the pass. -/
structure Light where
  clipX : ℚ
  clipY : ℚ
  clipZ : ℚ
  clipW : ℚ
  deriving DecidableEq

/-- The part of a Scene the pass reads: its light list. -/
structure Scene where
  lights : List Light
  deriving DecidableEq

/-- The host-side state of the GodRays pass. Field names and types follow the
member declarations of GodRays.h lines 77-90; mBakedNumSamples models the
sample count compiled into the current light-pass program (mpLightPass), and
mpScene the Scene::SharedPtr member (null embedded as none). -/
structure GodRaysState where
  mMediumDensity : ℚ
  mMediumDecay : ℚ
  mMediumWeight : ℚ
  mExposer : ℚ
  mNumSamples : ℤ
  mLightIndex : ℤ
  mDirty : Bool
  mBakedNumSamples : ℤ
  mpScene : Option Scene
  deriving DecidableEq

/-- Modelled from the spec: the GodRays constructor body (GodRays.cpp missing
from src/). §4.1: create validates ranges and clamps silently to the §3
ranges, and marks dirty. mLightIndex = 0, mDirty = true are the member
initializers of GodRays.h lines 82-83. -/
def create (mediumDensity mediumDecay mediumWeight exposer : ℚ)
    (numSamples : ℤ) : GodRaysState :=
  { mMediumDensity := max 0 mediumDensity
    mMediumDecay := max 0 (min 1 mediumDecay)
    mMediumWeight := max 0 mediumWeight
    mExposer := max 0 exposer
    mNumSamples := max 1 (min 256 numSamples)
    mLightIndex := 0
    mDirty := true
    mBakedNumSamples := 0
    mpScene := none }

/-- The pass created by create() with every argument defaulted; the default
argument values are those of GodRays.h line 46. -/
def createDefault : GodRaysState := create 1 (9 / 10) 1 (6 / 10) 200

/-- From GodRays.h line 70: setScene stores the given scene pointer in
mpScene. -/
def setScene (s : GodRaysState) (sc : Option Scene) : GodRaysState :=
  { s with mpScene := sc }

/-- Modelled from the spec: the setNumSamples body (GodRays.cpp missing from
src/). §4.1: if n differs from the current value, store n and mark dirty. -/
def setNumSamples (s : GodRaysState) (n : ℤ) : GodRaysState :=
  if n = s.mNumSamples then s else { s with mNumSamples := n, mDirty := true }

/-- GPU work and shader rebuilds recorded by one execute call, in order. -/
inductive Event
  | rebuild (n : ℤ)
  | drawOccluder
  | drawRadialBlur
  | drawComposite
  deriving DecidableEq

/-- Whether an event is a light-pass shader rebuild. -/
def isRebuild : Event → Bool
  | Event.rebuild _ => true
  | _ => false

/-- Modelled from the spec: one pixel of the LightOccluderPass fragment
program (shader source missing from src/). §4.2: geometry present (sampled
depth strictly below the far-plane sentinel) emits zero, otherwise the scene
background color plus the rasterized light-disk contribution. -/
def occluderPixel (src depth lightDisk : Image) (farDepth : ℚ) (uv : UV) : ℚ :=
  if depth uv < farDepth then 0 else src uv + lightDisk uv

/-- Modelled from the spec: the low-resolution occluder image lowResColor
written by LightOccluderPass. §4.2: if the light is behind the camera
(clip.w ≤ 0) the pass emits a black image. -/
def lowResImage (light : Light) (src depth lightDisk : Image) (farDepth : ℚ) : Image :=
  if light.clipW ≤ 0 then fun _ => 0
  else fun uv => occluderPixel src depth lightDisk farDepth uv

/-- Modelled from the spec: the screen-space light position of §4.2,
uvLight = (clip.xy / clip.w) * 0.5 + 0.5. -/
def uvLightOf (light : Light) : UV :=
  (light.clipX / light.clipW * (1 / 2) + 1 / 2,
   light.clipY / light.clipW * (1 / 2) + 1 / 2)

/-- Result of one execute call: the post-state, the destination image on
return, and the recorded events. -/
structure ExecResult where
  state : GodRaysState
  dst : Image
  events : List Event

/-- Modelled from the spec: the execute body (GodRays.cpp missing from src/).
No scene or no light at mLightIndex: skip, dst untouched, nothing recorded
(§7). Otherwise: if dirty, rebuild the light pass with mNumSamples baked in
and reset the flag before any draw (§4.1); run occluder, radial blur and
additive composite in order (§5); dst receives its prior contents plus the
shafts image (§4.1). lightDisk and farDepth stand for the light-disk
rasterization and background-depth threshold uniforms of §4.2. -/
def executeCore (s : GodRaysState) (src depth dst lightDisk : Image)
    (farDepth : ℚ) : ExecResult :=
  match s.mpScene with
  | none => ⟨s, dst, []⟩
  | some scene =>
    match scene.lights[s.mLightIndex.toNat]? with
    | none => ⟨s, dst, []⟩
    | some light =>
      let s1 : GodRaysState :=
        if s.mDirty then { s with mDirty := false, mBakedNumSamples := s.mNumSamples }
        else s
      let rebuildEvents : List Event :=
        if s.mDirty then [Event.rebuild s.mNumSamples] else []
      let lowRes : Image := lowResImage light src depth lightDisk farDepth
      let shafts : Image := fun p =>
        radialBlur lowRes (uvLightOf light) p s.mMediumDensity s.mMediumWeight
          s.mMediumDecay s.mExposer s1.mBakedNumSamples.toNat
      ⟨s1, fun p => dst p + shafts p,
        rebuildEvents ++ [Event.drawOccluder, Event.drawRadialBlur, Event.drawComposite]⟩

/-- Modelled from the spec: the serialized parameter record of §6, with its
stable field names; numSamples and lightIndex are the 32-bit integers. -/
structure RenderPassSerializer where
  mediumDensity : ℚ
  mediumDecay : ℚ
  mediumWeight : ℚ
  exposure : ℚ
  numSamples : ℤ
  lightIndex : ℤ

/-- Modelled from the spec: the serialize body (GodRays.cpp missing from
src/). §4.1/§6: writes the five parameters and lightIndex under their stable
names. -/
def serialize (s : GodRaysState) : RenderPassSerializer :=
  { mediumDensity := s.mMediumDensity
    mediumDecay := s.mMediumDecay
    mediumWeight := s.mMediumWeight
    exposure := s.mExposer
    numSamples := s.mNumSamples
    lightIndex := s.mLightIndex }

/-- Modelled from the spec: the deserialize body (GodRays.cpp missing from
src/). §4.1/§7: builds a pass from the serialized parameters, clamping
out-of-range values (ConfigurationError) via the create path; an out-of-range
light index is clamped to 0 (§3). -/
def deserialize (ser : RenderPassSerializer) : GodRaysState :=
  { create ser.mediumDensity ser.mediumDecay ser.mediumWeight ser.exposure ser.numSamples
    with mLightIndex := max 0 ser.lightIndex }

/-- With no scene set, execute returns immediately: state, destination and
recorded work are untouched. -/
lemma executeCore_skip_none (s : GodRaysState) (src depth dst lightDisk : Image)
    (farDepth : ℚ) (hsc : s.mpScene = none) :
    executeCore s src depth dst lightDisk farDepth = ⟨s, dst, []⟩ := by
  unfold executeCore
  rw [hsc]

/-- With a scene but no light at the selected index, execute returns
immediately. -/
lemma executeCore_skip_nolight (s : GodRaysState) (scene : Scene)
    (src depth dst lightDisk : Image) (farDepth : ℚ)
    (hsc : s.mpScene = some scene)
    (hl : scene.lights[s.mLightIndex.toNat]? = none) :
    executeCore s src depth dst lightDisk farDepth = ⟨s, dst, []⟩ := by
  obtain ⟨ρ0, dec0, w0, e0, ns0, li0, dirty0, baked0, sc0⟩ := s
  simp only at hsc hl
  subst hsc
  unfold executeCore
  simp only [hl]

/-- Characterization of execute when a scene and a selected light exist. -/
lemma executeCore_some (s : GodRaysState) (scene : Scene) (light : Light)
    (src depth dst lightDisk : Image) (farDepth : ℚ)
    (hsc : s.mpScene = some scene)
    (hl : scene.lights[s.mLightIndex.toNat]? = some light) :
    executeCore s src depth dst lightDisk farDepth =
      ⟨(if s.mDirty then { s with mDirty := false, mBakedNumSamples := s.mNumSamples } else s),
       (fun p => dst p + radialBlur (lowResImage light src depth lightDisk farDepth)
          (uvLightOf light) p s.mMediumDensity s.mMediumWeight s.mMediumDecay s.mExposer
          (if s.mDirty then s.mNumSamples else s.mBakedNumSamples).toNat),
       (if s.mDirty then [Event.rebuild s.mNumSamples] else [])
         ++ [Event.drawOccluder, Event.drawRadialBlur, Event.drawComposite]⟩ := by
  obtain ⟨ρ0, dec0, w0, e0, ns0, li0, dirty0, baked0, sc0⟩ := s
  simp only at hsc hl ⊢
  subst hsc
  unfold executeCore
  simp only [hl]
  cases dirty0 <;> rfl

/-- C1: with numSamples = 1 the radial-blur output at pixel p is the single
tap sample(lowResColor, p + (uvLight - p) * mediumDensity) * mediumWeight *
exposure, i.e. one loop iteration taken with illumDecay = 1. -/
theorem godRays_C1_single_sample (tex : Image) (uvLight p : UV) (ρ w d e : ℚ) :
    radialBlur tex uvLight p ρ w d e 1
      = tex (p.1 + (uvLight.1 - p.1) * ρ, p.2 + (uvLight.2 - p.2) * ρ) * w * e := by
  rw [radialBlur_closed, Finset.sum_range_one]
  have htap : tap p (radialBlurDir uvLight p 1 ρ) 1
      = (p.1 + (uvLight.1 - p.1) * ρ, p.2 + (uvLight.2 - p.2) * ρ) := by
    simp [tap, radialBlurDir]
  rw [htap, pow_zero, mul_one]

/-- C2: when uvLight = p the direction vector is zero, every tap reads the
same texel, and the output is sample(lowResColor, p) * mediumWeight *
(sum over k below numSamples of mediumDecay ^ k) * exposure; the algorithm
needs no special case for this limit. -/
theorem godRays_C2_light_at_pixel (tex : Image) (p : UV) (ρ w d e : ℚ) (N : ℕ) :
    radialBlur tex p p ρ w d e N
      = tex p * w * (∑ k ∈ Finset.range N, d ^ k) * e :=
  radialBlur_center tex p ρ w d e N

/-- C3: executing with exposure = 0 or with mediumWeight = 0 leaves the
destination image identical to its pre-state; the additive composite adds
zero everywhere. -/
theorem godRays_C3_zero_param_identity (s : GodRaysState)
    (src depth dst lightDisk : Image) (farDepth : ℚ)
    (h : s.mExposer = 0 ∨ s.mMediumWeight = 0) :
    (executeCore s src depth dst lightDisk farDepth).dst = dst := by
  cases hsc : s.mpScene with
  | none => rw [executeCore_skip_none s src depth dst lightDisk farDepth hsc]
  | some scene =>
    cases hl : scene.lights[s.mLightIndex.toNat]? with
    | none => rw [executeCore_skip_nolight s scene src depth dst lightDisk farDepth hsc hl]
    | some light =>
      rw [executeCore_some s scene light src depth dst lightDisk farDepth hsc hl]
      funext q
      simp only []
      rcases h with he | hw
      · rw [he, radialBlur_exposer_zero, add_zero]
      · rw [hw, radialBlur_weight_zero, add_zero]

/-- A concrete pass state with zero mediumWeight and a one-light scene, used
to witness C3. -/
def zeroWeightState : GodRaysState :=
  { createDefault with mMediumWeight := 0, mpScene := some ⟨[⟨0, 0, 0, 1⟩]⟩ }

/-- Witness for C3 at a concrete pass state and images. -/
theorem godRays_C3_zero_param_identity_witness :
    (zeroWeightState.mExposer = 0 ∨ zeroWeightState.mMediumWeight = 0) ∧
    (executeCore zeroWeightState (fun _ => 1) (fun _ => 1) (fun _ => 2) (fun _ => 0) 1).dst
      = fun _ => 2 :=
  ⟨Or.inr rfl,
    godRays_C3_zero_param_identity zeroWeightState
      (fun _ => 1) (fun _ => 1) (fun _ => 2) (fun _ => 0) 1 (Or.inr rfl)⟩

/-- C4: with non-negative occluder samples and decay, the per-pixel output is
a weighted sum of those samples and is monotone non-decreasing in
mediumWeight and in exposure (jointly, hence in each one separately with the
other held fixed). -/
theorem godRays_C4_monotone_weight_exposure (tex : Image) (uvLight p : UV)
    (ρ d : ℚ) (N : ℕ) (w1 w2 e1 e2 : ℚ)
    (htex : ∀ uv, 0 ≤ tex uv) (hd : 0 ≤ d)
    (hw1 : 0 ≤ w1) (hw : w1 ≤ w2) (he1 : 0 ≤ e1) (he : e1 ≤ e2) :
    radialBlur tex uvLight p ρ w1 d e1 N ≤ radialBlur tex uvLight p ρ w2 d e2 N := by
  rw [radialBlur_closed, radialBlur_closed]
  have hS : 0 ≤ ∑ k ∈ Finset.range N,
      tex (tap p (radialBlurDir uvLight p N ρ) (k + 1)) * d ^ k :=
    Finset.sum_nonneg fun k _ => mul_nonneg (htex _) (pow_nonneg hd k)
  exact mul_le_mul (mul_le_mul_of_nonneg_left hw hS) he he1
    (mul_nonneg hS (le_trans hw1 hw))

/-- Witness for C4 at a concrete image, pixel and parameter pairs. -/
theorem godRays_C4_monotone_weight_exposure_witness :
    ((1 : ℚ) ≤ 2) ∧ ((1 : ℚ) ≤ 3) ∧
    radialBlur (fun _ => 1) (1, 0) (0, 0) 1 1 (1 / 2) 1 2
      ≤ radialBlur (fun _ => 1) (1, 0) (0, 0) 1 2 (1 / 2) 3 2 :=
  ⟨by norm_num, by norm_num,
    godRays_C4_monotone_weight_exposure (fun _ => 1) (1, 0) (0, 0) 1 (1 / 2) 2 1 2 1 3
      (fun _ => by norm_num) (by norm_num) (by norm_num) (by norm_num) (by norm_num)
      (by norm_num)⟩

/-- C5: when the selected light's clip-space position has clip.w at most 0
(light behind the camera), the occluder image lowResColor is black, the
radial blur contributes zero at every pixel and every sample count, and
execute leaves the destination image equal to its pre-state. -/
theorem godRays_C5_light_behind_camera (s : GodRaysState) (scene : Scene)
    (light : Light) (src depth dst lightDisk : Image) (farDepth : ℚ)
    (hsc : s.mpScene = some scene)
    (hl : scene.lights[s.mLightIndex.toNat]? = some light)
    (hw : light.clipW ≤ 0) :
    lowResImage light src depth lightDisk farDepth = (fun _ => 0) ∧
    (∀ p : UV, ∀ N : ℕ,
      radialBlur (lowResImage light src depth lightDisk farDepth) (uvLightOf light) p
        s.mMediumDensity s.mMediumWeight s.mMediumDecay s.mExposer N = 0) ∧
    (executeCore s src depth dst lightDisk farDepth).dst = dst := by
  have hlow : lowResImage light src depth lightDisk farDepth = (fun _ => 0) := by
    unfold lowResImage
    rw [if_pos hw]
  refine ⟨hlow, ?_, ?_⟩
  · intro p N
    rw [hlow, radialBlur_zero_tex]
  · rw [executeCore_some s scene light src depth dst lightDisk farDepth hsc hl]
    funext q
    simp only []
    rw [hlow, radialBlur_zero_tex, add_zero]

/-- A concrete pass state whose only scene light sits behind the camera,
used to witness C5. -/
def behindLightState : GodRaysState :=
  { createDefault with mpScene := some ⟨[⟨0, 0, 0, -1⟩]⟩ }

/-- Witness for C5 at a concrete state, light and images. -/
theorem godRays_C5_light_behind_camera_witness :
    behindLightState.mpScene = some ⟨[⟨0, 0, 0, -1⟩]⟩ ∧
    (Scene.mk [⟨0, 0, 0, -1⟩]).lights[behindLightState.mLightIndex.toNat]?
      = some ⟨0, 0, 0, -1⟩ ∧
    (⟨0, 0, 0, -1⟩ : Light).clipW ≤ 0 ∧
    (executeCore behindLightState (fun _ => 1) (fun _ => 1) (fun _ => 2) (fun _ => 0) 1).dst
      = fun _ => 2 :=
  ⟨rfl, rfl, by norm_num,
    (godRays_C5_light_behind_camera behindLightState ⟨[⟨0, 0, 0, -1⟩]⟩ ⟨0, 0, 0, -1⟩
      (fun _ => 1) (fun _ => 1) (fun _ => 2) (fun _ => 0) 1 rfl rfl (by norm_num)).2.2⟩

/-- C8: an execute call made with no scene set is skipped without error: the
state is unchanged, the destination image is untouched, and no GPU work is
recorded. -/
theorem godRays_C8_missing_scene_skips (s : GodRaysState)
    (src depth dst lightDisk : Image) (farDepth : ℚ)
    (hsc : s.mpScene = none) :
    (executeCore s src depth dst lightDisk farDepth).state = s ∧
    (executeCore s src depth dst lightDisk farDepth).dst = dst ∧
    (executeCore s src depth dst lightDisk farDepth).events = [] := by
  rw [executeCore_skip_none s src depth dst lightDisk farDepth hsc]
  exact ⟨rfl, rfl, rfl⟩

/-- Witness for C8: the freshly created pass has no scene, and execute on it
is a no-op. -/
theorem godRays_C8_missing_scene_skips_witness :
    createDefault.mpScene = none ∧
    (executeCore createDefault (fun _ => 1) (fun _ => 1) (fun _ => 2) (fun _ => 0) 1).state
      = createDefault ∧
    (executeCore createDefault (fun _ => 1) (fun _ => 1) (fun _ => 2) (fun _ => 0) 1).dst
      = (fun _ => (2 : ℚ)) ∧
    (executeCore createDefault (fun _ => 1) (fun _ => 1) (fun _ => 2) (fun _ => 0) 1).events
      = [] :=
  ⟨rfl, godRays_C8_missing_scene_skips createDefault
    (fun _ => 1) (fun _ => 1) (fun _ => 2) (fun _ => 0) 1 rfl⟩

/-- C6: serialize followed by deserialize restores all six parameter fields
exactly, for any state whose fields lie in the valid ranges of §3. -/
theorem godRays_C6_serialize_roundtrip (s : GodRaysState)
    (hde : 0 ≤ s.mMediumDensity)
    (hd0 : 0 ≤ s.mMediumDecay) (hd1 : s.mMediumDecay ≤ 1)
    (hwt : 0 ≤ s.mMediumWeight) (hex : 0 ≤ s.mExposer)
    (hn1 : 1 ≤ s.mNumSamples) (hn2 : s.mNumSamples ≤ 256)
    (hli : 0 ≤ s.mLightIndex) :
    (deserialize (serialize s)).mMediumDensity = s.mMediumDensity ∧
    (deserialize (serialize s)).mMediumDecay = s.mMediumDecay ∧
    (deserialize (serialize s)).mMediumWeight = s.mMediumWeight ∧
    (deserialize (serialize s)).mExposer = s.mExposer ∧
    (deserialize (serialize s)).mNumSamples = s.mNumSamples ∧
    (deserialize (serialize s)).mLightIndex = s.mLightIndex := by
  refine ⟨?_, ?_, ?_, ?_, ?_, ?_⟩
  · show max 0 s.mMediumDensity = s.mMediumDensity
    exact max_eq_right hde
  · show max 0 (min 1 s.mMediumDecay) = s.mMediumDecay
    rw [min_eq_right hd1]
    exact max_eq_right hd0
  · show max 0 s.mMediumWeight = s.mMediumWeight
    exact max_eq_right hwt
  · show max 0 s.mExposer = s.mExposer
    exact max_eq_right hex
  · show max 1 (min 256 s.mNumSamples) = s.mNumSamples
    rw [min_eq_right hn2]
    exact max_eq_right hn1
  · show max 0 s.mLightIndex = s.mLightIndex
    exact max_eq_right hli

/-- The parameter tuple of §8 scenario 6, used to witness C6. -/
def roundTripSample : GodRaysState :=
  { mMediumDensity := 12 / 10
    mMediumDecay := 85 / 100
    mMediumWeight := 5 / 10
    mExposer := 7 / 10
    mNumSamples := 128
    mLightIndex := 3
    mDirty := false
    mBakedNumSamples := 128
    mpScene := none }

/-- Witness for C6 on the tuple (1.2, 0.85, 0.5, 0.7, 128, 3). -/
theorem godRays_C6_serialize_roundtrip_witness :
    (0 ≤ roundTripSample.mMediumDensity) ∧ (roundTripSample.mMediumDecay ≤ 1) ∧
    (1 ≤ roundTripSample.mNumSamples) ∧ (roundTripSample.mNumSamples ≤ 256) ∧
    (deserialize (serialize roundTripSample)).mMediumDensity
      = roundTripSample.mMediumDensity ∧
    (deserialize (serialize roundTripSample)).mMediumDecay
      = roundTripSample.mMediumDecay ∧
    (deserialize (serialize roundTripSample)).mMediumWeight
      = roundTripSample.mMediumWeight ∧
    (deserialize (serialize roundTripSample)).mExposer
      = roundTripSample.mExposer ∧
    (deserialize (serialize roundTripSample)).mNumSamples
      = roundTripSample.mNumSamples ∧
    (deserialize (serialize roundTripSample)).mLightIndex
      = roundTripSample.mLightIndex :=
  ⟨by norm_num [roundTripSample], by norm_num [roundTripSample],
    by norm_num [roundTripSample], by norm_num [roundTripSample],
    godRays_C6_serialize_roundtrip roundTripSample
      (by norm_num [roundTripSample]) (by norm_num [roundTripSample])
      (by norm_num [roundTripSample]) (by norm_num [roundTripSample])
      (by norm_num [roundTripSample]) (by norm_num [roundTripSample])
      (by norm_num [roundTripSample]) (by norm_num [roundTripSample])⟩

/-- C7: calling setNumSamples with a value different from the current one
stores it and sets the dirty flag; the next execute records exactly one
rebuild with that value baked in, placed before every draw, and returns with
the dirty flag reset; setNumSamples with the unchanged value alters nothing,
and a clean pass records no rebuild. -/
theorem godRays_C7_num_samples_rebuild (s : GodRaysState) (scene : Scene)
    (light : Light) (n : ℤ) (src depth dst lightDisk : Image) (farDepth : ℚ)
    (hsc : s.mpScene = some scene)
    (hl : scene.lights[s.mLightIndex.toNat]? = some light) :
    (n ≠ s.mNumSamples →
      (setNumSamples s n).mNumSamples = n ∧
      (setNumSamples s n).mDirty = true ∧
      (executeCore (setNumSamples s n) src depth dst lightDisk farDepth).events
        = Event.rebuild n
            :: [Event.drawOccluder, Event.drawRadialBlur, Event.drawComposite] ∧
      ((executeCore (setNumSamples s n) src depth dst lightDisk farDepth).events.filter
          isRebuild) = [Event.rebuild n] ∧
      (executeCore (setNumSamples s n) src depth dst lightDisk farDepth).state.mDirty
        = false ∧
      (executeCore (setNumSamples s n) src depth dst lightDisk
          farDepth).state.mBakedNumSamples = n) ∧
    setNumSamples s s.mNumSamples = s ∧
    (s.mDirty = false →
      ((executeCore s src depth dst lightDisk farDepth).events.filter isRebuild) = []) := by
  refine ⟨?_, ?_, ?_⟩
  · intro hne
    have hset : setNumSamples s n = { s with mNumSamples := n, mDirty := true } := by
      unfold setNumSamples
      rw [if_neg hne]
    rw [hset]
    have hex := executeCore_some { s with mNumSamples := n, mDirty := true } scene light
      src depth dst lightDisk farDepth hsc hl
    rw [hex]
    exact ⟨rfl, rfl, rfl, rfl, rfl, rfl⟩
  · unfold setNumSamples
    rw [if_pos rfl]
  · intro hclean
    have hex := executeCore_some s scene light src depth dst lightDisk farDepth hsc hl
    rw [hex]
    simp [hclean, isRebuild]

/-- A concrete clean pass state with a one-light scene and 200 samples baked
in, used to witness C7. -/
def cleanPassState : GodRaysState :=
  { createDefault with
    mDirty := false
    mBakedNumSamples := 200
    mpScene := some ⟨[⟨0, 0, 0, 1⟩]⟩ }

/-- Witness for C7: switching the sample count from 200 to 128 on a clean
pass makes the next execute rebuild exactly once, ahead of the draws. -/
theorem godRays_C7_num_samples_rebuild_witness :
    cleanPassState.mpScene = some ⟨[⟨0, 0, 0, 1⟩]⟩ ∧
    ((128 : ℤ) ≠ cleanPassState.mNumSamples) ∧
    (executeCore (setNumSamples cleanPassState 128)
        (fun _ => 1) (fun _ => 1) (fun _ => 2) (fun _ => 0) 1).events
      = Event.rebuild 128
          :: [Event.drawOccluder, Event.drawRadialBlur, Event.drawComposite] ∧
    (executeCore (setNumSamples cleanPassState 128)
        (fun _ => 1) (fun _ => 1) (fun _ => 2) (fun _ => 0) 1).state.mDirty = false ∧
    (executeCore cleanPassState
        (fun _ => 1) (fun _ => 1) (fun _ => 2) (fun _ => 0) 1).events.filter isRebuild
      = [] :=
  ⟨rfl, by decide,
    ((godRays_C7_num_samples_rebuild cleanPassState ⟨[⟨0, 0, 0, 1⟩]⟩ ⟨0, 0, 0, 1⟩ 128
        (fun _ => 1) (fun _ => 1) (fun _ => 2) (fun _ => 0) 1 rfl rfl).1
      (by decide)).2.2.1,
    ((godRays_C7_num_samples_rebuild cleanPassState ⟨[⟨0, 0, 0, 1⟩]⟩ ⟨0, 0, 0, 1⟩ 128
        (fun _ => 1) (fun _ => 1) (fun _ => 2) (fun _ => 0) 1 rfl rfl).1
      (by decide)).2.2.2.2.1,
    (godRays_C7_num_samples_rebuild cleanPassState ⟨[⟨0, 0, 0, 1⟩]⟩ ⟨0, 0, 0, 1⟩ 128
        (fun _ => 1) (fun _ => 1) (fun _ => 2) (fun _ => 0) 1 rfl rfl).2.2 rfl⟩

/-- The C++ pointer flavors a class member holding a collaborator can be
declared with. -/
inductive CppPtrKind
  | uniquePtr
  | sharedPtr
  | weakPtr
  | rawPtr
  deriving DecidableEq

/-- From GodRays.h line 90: the scene member is declared
Scene::SharedPtr mpScene, and Scene::SharedPtr is std::shared_ptr of Scene
(Scene.h alias). -/
def mpSceneDeclaredKind : CppPtrKind := CppPtrKind.sharedPtr

/-- Whether a member of the given pointer kind owns a share of the pointee
and so keeps it alive while held: std::unique_ptr and std::shared_ptr do;
std::weak_ptr and raw pointers are the non-owning kinds that never extend
the pointee's lifetime. -/
def extendsPointeeLifetime : CppPtrKind → Bool
  | CppPtrKind.uniquePtr => true
  | CppPtrKind.sharedPtr => true
  | CppPtrKind.weakPtr => false
  | CppPtrKind.rawPtr => false

/-- Counterexample to C9: the header declares mpScene as a std::shared_ptr,
an owning reference, so the pass does extend the scene's lifetime while it
holds it; the claim that it never does is false. -/
theorem godRays_C9_counterexample :
    ¬ (extendsPointeeLifetime mpSceneDeclaredKind = false) := by
  decide

/-- C9 amended: setScene replaces the light source for subsequent frames,
but the pass holds the scene through an owning std::shared_ptr member, which
keeps the scene alive for as long as the pass holds it. -/
theorem godRays_C9_owning_scene_reference :
    mpSceneDeclaredKind = CppPtrKind.sharedPtr ∧
    extendsPointeeLifetime mpSceneDeclaredKind = true ∧
    (∀ (s : GodRaysState) (sc : Option Scene), (setScene s sc).mpScene = sc) :=
  ⟨rfl, rfl, fun _ _ => rfl⟩

/-- C10: the pass created with all arguments defaulted carries mediumDensity
1.0, mediumDecay 0.9, mediumWeight 1.0, exposure 0.6, numSamples 200 and
lightIndex 0, with the dirty flag initially set, so its first execute builds
the shader (with 200 baked in) before any draw; under these defaults the
uvLight = p output is sample * (sum over k below 200 of 0.9 ^ k) * 1.0 *
0.6, the peak of §8 scenario 1. -/
theorem godRays_C10_default_params (scene : Scene) (light : Light)
    (src depth dst lightDisk : Image) (farDepth : ℚ)
    (hl : scene.lights[(0 : ℤ).toNat]? = some light) :
    createDefault.mMediumDensity = 1 ∧
    createDefault.mMediumDecay = 9 / 10 ∧
    createDefault.mMediumWeight = 1 ∧
    createDefault.mExposer = 6 / 10 ∧
    createDefault.mNumSamples = 200 ∧
    createDefault.mLightIndex = 0 ∧
    createDefault.mDirty = true ∧
    (executeCore (setScene createDefault (some scene)) src depth dst lightDisk
        farDepth).events
      = Event.rebuild 200
          :: [Event.drawOccluder, Event.drawRadialBlur, Event.drawComposite] ∧
    (∀ (tex : Image) (p : UV),
      radialBlur tex p p 1 1 (9 / 10) (6 / 10) 200
        = tex p * 1 * (∑ k ∈ Finset.range 200, (9 / 10 : ℚ) ^ k) * (6 / 10)) := by
  refine ⟨?_, ?_, ?_, ?_, ?_, rfl, rfl, ?_, ?_⟩
  · show max 0 (1 : ℚ) = 1
    exact max_eq_right (by norm_num)
  · show max 0 (min 1 (9 / 10 : ℚ)) = 9 / 10
    rw [min_eq_right (by norm_num : (9 / 10 : ℚ) ≤ 1)]
    exact max_eq_right (by norm_num)
  · show max 0 (1 : ℚ) = 1
    exact max_eq_right (by norm_num)
  · show max 0 (6 / 10 : ℚ) = 6 / 10
    exact max_eq_right (by norm_num)
  · show max 1 (min 256 (200 : ℤ)) = 200
    rw [min_eq_right (by norm_num : (200 : ℤ) ≤ 256)]
    exact max_eq_right (by norm_num)
  · have hex := executeCore_some (setScene createDefault (some scene)) scene light
      src depth dst lightDisk farDepth rfl hl
    have hns : (setScene createDefault (some scene)).mNumSamples = 200 := by
      show max 1 (min 256 (200 : ℤ)) = 200
      rw [min_eq_right (by norm_num : (200 : ℤ) ≤ 256)]
      exact max_eq_right (by norm_num)
    rw [hex, hns]
    rfl
  · intro tex p
    exact radialBlur_center tex p 1 1 (9 / 10) (6 / 10) 200

/-- Witness for C10 with a concrete one-light scene and images. -/
theorem godRays_C10_default_params_witness :
    (Scene.mk [⟨0, 0, 1, 1⟩]).lights[(0 : ℤ).toNat]? = some ⟨0, 0, 1, 1⟩ ∧
    (executeCore (setScene createDefault (some ⟨[⟨0, 0, 1, 1⟩]⟩))
        (fun _ => 1) (fun _ => 1) (fun _ => 2) (fun _ => 0) 1).events
      = Event.rebuild 200
          :: [Event.drawOccluder, Event.drawRadialBlur, Event.drawComposite] :=
  ⟨rfl,
    (godRays_C10_default_params ⟨[⟨0, 0, 1, 1⟩]⟩ ⟨0, 0, 1, 1⟩
      (fun _ => 1) (fun _ => 1) (fun _ => 2) (fun _ => 0) 1 rfl).2.2.2.2.2.2.2.1⟩
